import Mathlib

/-
Verification development for the Agentic SSO demo system.

The development shallowly embeds the three source files:
  service_a_backend.py : the Auth Backend (login, callback, whoami handlers),
  sso_agent.py         : the HTTP relay (helper functions plus endpoint wrappers),
  mcp_sso_server.py    : the MCP relay (tool functions plus endpoint wrappers).

HTTP handlers become pure Lean functions; the backend's mutable
session_states dict becomes an explicit `Finset String` of pending nonces;
the relays' module-level session_cookies dict becomes an explicit jar value
threaded through each operation; network calls to collaborators (the MSAL
token exchange, the relays' httpx calls to the backend) become function or
outcome parameters, so that every observable branch of the Python code is a
branch of the Lean definition.
-/

namespace SSO

/-- Attributes of the session cookie the backend sets on a successful
callback; models the arguments of resp.set_cookie in auth_callback
(service_a_backend.py lines 145-152). -/
structure SetCookie where
  key : String
  value : String
  httponly : Bool
  secure : Bool
  samesite : String
deriving DecidableEq

/-- Default cookie name, os.getenv("COOKIE_NAME", "sso_session"). -/
def COOKIE_NAME : String := "sso_session"

/-- Result dictionary of msal acquire_token_by_authorization_code as far as
auth_callback inspects it: only the presence of the "id_token" key matters
(service_a_backend.py line 137). -/
structure ExchangeResult where
  id_token : Option String
deriving DecidableEq

/-- Observable outcome of the auth_callback handler: an HTTPException with
status 400, an HTTPException with status 401, or a RedirectResponse carrying
a freshly set session cookie. -/
inductive CallbackResult where
  | badRequest (detail : String)
  | authFailed (detail : String)
  | success (cookie : SetCookie) (location : String)
deriving DecidableEq

/-- Pending-state bookkeeping of auth_login (service_a_backend.py lines
89-90): session_states[state] = True, i.e. the nonce is inserted into the
pending set. -/
def auth_login (pending : Finset String) (nonce : String) : Finset String :=
  insert nonce pending

/-- State validation step of auth_callback (service_a_backend.py lines
117-122): `if state and state in session_states: session_states.pop(state)`.
Python truthiness makes the empty string count as an absent state. Returns
whether the state was validated together with the updated pending set. -/
def validate_state (state : Option String) (pending : Finset String) :
    Bool × Finset String :=
  match state with
  | some s => if s ≠ "" ∧ s ∈ pending then (true, pending.erase s) else (false, pending)
  | none => (false, pending)

/-- The auth_callback handler (service_a_backend.py lines 100-153).
`if not code` rejects a missing or empty code with a 400 before any state
bookkeeping; state validation then pops a pending nonce but its failure is
only logged; the code is exchanged for tokens and a missing "id_token"
yields a 401; otherwise a redirect to /post-login is returned with the
session cookie set (http-only, not secure, samesite lax, value the raw
id_token). Returns the handler outcome and the updated pending set. -/
def auth_callback (code state : Option String) (pending : Finset String)
    (exchange : String → ExchangeResult) : CallbackResult × Finset String :=
  match code with
  | none => (CallbackResult.badRequest "Missing code", pending)
  | some c =>
    if c = "" then (CallbackResult.badRequest "Missing code", pending)
    else
      let v := validate_state state pending
      match (exchange c).id_token with
      | none => (CallbackResult.authFailed "Failed to authenticate", v.2)
      | some tok =>
        (CallbackResult.success
          { key := COOKIE_NAME, value := tok, httponly := true,
            secure := false, samesite := "lax" }
          "/post-login", v.2)

/-- Claim set of a decoded identity token as far as auth_me reads it: the
six claim keys it projects, each possibly absent. -/
structure Claims where
  sub : Option String
  oid : Option String
  email : Option String
  preferred_username : Option String
  upn : Option String
  name : Option String
deriving DecidableEq

/-- Outcome of jwt.decode(token, verify_signature=False) as auth_me
distinguishes it: a claim dictionary, a jwt.DecodeError, or any other
exception (service_a_backend.py lines 162-188). -/
inductive DecodeOutcome where
  | ok (claims : Claims)
  | decodeError (msg : String)
  | otherError (msg : String)
deriving DecidableEq

/-- The user_info dictionary auth_me builds (service_a_backend.py lines
166-173). -/
structure UserInfo where
  sub : Option String
  email : Option String
  name : String
deriving DecidableEq

/-- Observable outcome of auth_me. -/
inductive MeResult where
  | unauthenticated
  | user (info : UserInfo)
  | invalidToken
  | internalError
deriving DecidableEq

/-- The auth_me handler (service_a_backend.py lines 156-188). Python
`if not sso_session` treats both a missing cookie and an empty-string cookie
value as unauthenticated; a decodable token is projected to user_info with
dict.get fallbacks; jwt.DecodeError yields the invalid_token response and
any other exception the internal_error response. -/
def auth_me (sso_session : Option String) (decode : String → DecodeOutcome) :
    MeResult :=
  match sso_session with
  | none => MeResult.unauthenticated
  | some s =>
    if s = "" then MeResult.unauthenticated
    else
      match decode s with
      | DecodeOutcome.ok c =>
          MeResult.user
            { sub := c.sub.orElse (fun _ => c.oid),
              email := c.email.orElse
                (fun _ => c.preferred_username.orElse (fun _ => c.upn)),
              name := c.name.getD "Unknown User" }
      | DecodeOutcome.decodeError _ => MeResult.invalidToken
      | DecodeOutcome.otherError _ => MeResult.internalError

/-- HTTP status code auth_me attaches to each outcome. -/
def MeResult.status : MeResult → Nat
  | MeResult.unauthenticated => 401
  | MeResult.user _ => 200
  | MeResult.invalidToken => 401
  | MeResult.internalError => 500

/-- Error value of the JSON body auth_me attaches to each outcome; none for
the success body. -/
def MeResult.errorBody : MeResult → Option String
  | MeResult.unauthenticated => some "unauthenticated"
  | MeResult.user _ => none
  | MeResult.invalidToken => some "invalid_token"
  | MeResult.internalError => some "internal_error"

/-- JSON-decodable Python value, the shape of the bodies the relays parse
out of backend responses and of the dictionaries they return. -/
inductive JVal where
  | null
  | bool (b : Bool)
  | num (n : Int)
  | str (s : String)
  | arr (xs : List JVal)
  | obj (fields : List (String × JVal))

mutual

/-- Rendering of a parsed JSON value inside a Python f-string, used by the
agent relay's f"backend_error: \x7bjson_data\x7d" (sso_agent.py line 79). -/
def pyRepr : JVal → String
  | JVal.null => "None"
  | JVal.bool true => "True"
  | JVal.bool false => "False"
  | JVal.num n => toString n
  | JVal.str s => "\x22" ++ s ++ "\x22"
  | JVal.obj fs => "\x7b" ++ pyReprObj fs ++ "\x7d"
  | JVal.arr xs => "[" ++ pyReprArr xs ++ "]"

/-- Field list rendering for pyRepr. -/
def pyReprObj : List (String × JVal) → String
  | [] => ""
  | [(k, v)] => "\x22" ++ k ++ "\x22: " ++ pyRepr v
  | (k, v) :: rest => "\x22" ++ k ++ "\x22: " ++ pyRepr v ++ ", " ++ pyReprObj rest

/-- Element list rendering for pyRepr. -/
def pyReprArr : List JVal → String
  | [] => ""
  | [v] => pyRepr v
  | v :: rest => pyRepr v ++ ", " ++ pyReprArr rest

end

/-- Conversion of an optional header value into the JSON value the relays
place in their response dictionaries (Python None becomes JSON null). -/
def optStr : Option String → JVal
  | some s => JVal.str s
  | none => JVal.null

/-- A backend HTTP response as the relays observe it through httpx: whether
it is a redirect, its location header, the cookies it carried, the result of
resp.json() (an error value models the raised parse exception and carries
its message), and resp.text. -/
structure HttpResponse where
  isRedirect : Bool
  location : Option String
  cookies : List (String × String)
  jsonBody : Except String JVal
  text : String

/-- Outcome of a relay's httpx call to the backend: a response, an
httpx.ConnectError, an httpx.TimeoutException, or any other exception.
In the httpx exception hierarchy ConnectError and TimeoutException are
disjoint siblings, so a handler for one never catches the other. -/
inductive CallOutcome where
  | resp (r : HttpResponse)
  | connectError (msg : String)
  | timeoutErr (msg : String)
  | otherExc (msg : String)

/-- The relays' in-memory cookie jar (module-level session_cookies dict). -/
abbrev Jar := List (String × String)

/-- Python `key in result` on a parsed JSON value. -/
def JVal.hasKey : JVal → String → Bool
  | JVal.obj fs, k => fs.any (fun kv => kv.1 == k)
  | _, _ => false

/-- Python result.get(key) on a parsed JSON value. -/
def JVal.getKey : JVal → String → Option JVal
  | JVal.obj fs, k => (fs.find? (fun kv => kv.1 == k)).map (fun kv => kv.2)
  | _, _ => none

/-- Singleton error dictionary, the \x7b"error": msg\x7d shape every relay
failure branch returns. -/
def errObj (msg : String) : JVal := JVal.obj [("error", JVal.str msg)]

/-- Cookie bookkeeping shared by both relay callbacks (sso_agent.py lines
114-117, mcp_sso_server.py lines 102-105): `if resp.cookies` clears the jar
and replaces it with the response cookies, so an empty cookie set leaves the
jar untouched. -/
def storeCookies (jar : Jar) (cookies : List (String × String)) : Jar :=
  if cookies.isEmpty then jar else cookies

/-- The agent relay's handle_sso_login helper (sso_agent.py lines 53-94).
On a redirect the location header is returned as auth_url; on a non-redirect
the parsed JSON or raw text is wrapped in a backend_error message; each of
the three exception classes maps to its own connection_error message. -/
def handle_sso_login : CallOutcome → JVal
  | CallOutcome.resp r =>
    if r.isRedirect then JVal.obj [("auth_url", optStr r.location)]
    else
      match r.jsonBody with
      | Except.ok j => errObj ("backend_error: " ++ pyRepr j)
      | Except.error _ => errObj ("backend_error: " ++ r.text)
  | CallOutcome.connectError _ =>
      errObj "connection_error: Cannot reach backend. Is service_a_backend.py running on port 8000?"
  | CallOutcome.timeoutErr _ => errObj "connection_error: Backend timeout"
  | CallOutcome.otherExc m => errObj ("connection_error: " ++ m)

/-- The agent relay's handle_sso_callback helper (sso_agent.py lines
97-139). Cookies are stored before the redirect test; a redirect returns the
OK status, a parseable non-redirect body is passed through, an unparseable
one is wrapped with the response text; ConnectError has a fixed message and
every other exception (timeouts included) is labelled with its own text.
Returns the result dictionary and the updated jar. -/
def handle_sso_callback (jar : Jar) : CallOutcome → JVal × Jar
  | CallOutcome.resp r =>
    let jar2 := storeCookies jar r.cookies
    if r.isRedirect then (JVal.obj [("status", JVal.str "OK")], jar2)
    else
      match r.jsonBody with
      | Except.ok j => (j, jar2)
      | Except.error _ => (errObj ("callback failed: " ++ r.text), jar2)
  | CallOutcome.connectError _ =>
      (errObj "connection_error: Cannot reach backend", jar)
  | CallOutcome.timeoutErr m => (errObj ("connection_error: " ++ m), jar)
  | CallOutcome.otherExc m => (errObj ("connection_error: " ++ m), jar)

/-- The agent relay's handle_sso_me helper (sso_agent.py lines 142-168).
The jar is sent as the outgoing cookies and left unchanged; the backend body
is returned verbatim when it parses; a parse failure or any non-ConnectError
exception (timeouts included) yields a me-failed message, ConnectError its
fixed connection_error message. -/
def handle_sso_me (jar : Jar) : CallOutcome → JVal
  | CallOutcome.resp r =>
    match r.jsonBody with
    | Except.ok j => j
    | Except.error m => errObj ("me failed: " ++ m)
  | CallOutcome.connectError _ => errObj "connection_error: Cannot reach backend"
  | CallOutcome.timeoutErr m => errObj ("me failed: " ++ m)
  | CallOutcome.otherExc m => errObj ("me failed: " ++ m)

/-- The agent relay's handle_sso_logout helper (sso_agent.py lines
171-195). The jar is cleared on every path: after a response (before the
body parse, whose failure still returns an ok status), and inside both
exception handlers. -/
def handle_sso_logout (jar : Jar) : CallOutcome → JVal × Jar
  | CallOutcome.resp r =>
    match r.jsonBody with
    | Except.ok j => (j, [])
    | Except.error _ => (JVal.obj [("status", JVal.str "ok")], [])
  | CallOutcome.connectError _ =>
      (errObj "connection_error: Cannot reach backend (session cleared locally)", [])
  | CallOutcome.timeoutErr m => (errObj ("connection_error: " ++ m), [])
  | CallOutcome.otherExc m => (errObj ("connection_error: " ++ m), [])

/-- The MCP relay's sso_login tool (mcp_sso_server.py lines 60-84). Unlike
the agent variant it passes a parseable non-redirect body through verbatim,
returns a fixed message when the body does not parse, and has a single
exception handler labelling every failure with its own text. -/
def sso_login : CallOutcome → JVal
  | CallOutcome.resp r =>
    if r.isRedirect then JVal.obj [("auth_url", optStr r.location)]
    else
      match r.jsonBody with
      | Except.ok j => j
      | Except.error _ => errObj "login failed"
  | CallOutcome.connectError m => errObj ("connection_error: " ++ m)
  | CallOutcome.timeoutErr m => errObj ("connection_error: " ++ m)
  | CallOutcome.otherExc m => errObj ("connection_error: " ++ m)

/-- The MCP relay's sso_callback tool (mcp_sso_server.py lines 87-120).
Same cookie bookkeeping as the agent variant; the unparseable-body message
omits the response text and a single exception handler covers every
failure. -/
def sso_callback (jar : Jar) : CallOutcome → JVal × Jar
  | CallOutcome.resp r =>
    let jar2 := storeCookies jar r.cookies
    if r.isRedirect then (JVal.obj [("status", JVal.str "OK")], jar2)
    else
      match r.jsonBody with
      | Except.ok j => (j, jar2)
      | Except.error _ => (errObj "callback failed", jar2)
  | CallOutcome.connectError m => (errObj ("connection_error: " ++ m), jar)
  | CallOutcome.timeoutErr m => (errObj ("connection_error: " ++ m), jar)
  | CallOutcome.otherExc m => (errObj ("connection_error: " ++ m), jar)

/-- The MCP relay's sso_me tool (mcp_sso_server.py lines 123-143). A single
exception handler labels every failure, connection errors included, as
me-failed. -/
def sso_me (jar : Jar) : CallOutcome → JVal
  | CallOutcome.resp r =>
    match r.jsonBody with
    | Except.ok j => j
    | Except.error m => errObj ("me failed: " ++ m)
  | CallOutcome.connectError m => errObj ("me failed: " ++ m)
  | CallOutcome.timeoutErr m => errObj ("me failed: " ++ m)
  | CallOutcome.otherExc m => errObj ("me failed: " ++ m)

/-- The MCP relay's sso_logout tool (mcp_sso_server.py lines 146-163).
session_cookies.clear() runs only after a backend response, before the body
parse (whose failure returns an error message rather than the agent
variant's ok status); the outer except handler (lines 161-163) returns the
connection_error body WITHOUT clearing, so the jar survives any raised
backend call — unlike the agent variant, which clears in both of its
exception handlers. -/
def sso_logout (jar : Jar) : CallOutcome → JVal × Jar
  | CallOutcome.resp r =>
    match r.jsonBody with
    | Except.ok j => (j, [])
    | Except.error _ => (errObj "logout failed", [])
  | CallOutcome.connectError m => (errObj ("connection_error: " ++ m), jar)
  | CallOutcome.timeoutErr m => (errObj ("connection_error: " ++ m), jar)
  | CallOutcome.otherExc m => (errObj ("connection_error: " ++ m), jar)

/-- Python result.get("status") == v on a relay result dictionary. -/
def isStatusVal (j : JVal) (v : String) : Bool :=
  match JVal.getKey j "status" with
  | some (JVal.str s) => s == v
  | _ => false

/-- The agent relay's /sso_login endpoint (sso_agent.py lines 214-223):
status 200 unless the result carries an error key, then 500. -/
def sso_login_endpoint (outcome : CallOutcome) : JVal × Nat :=
  let result := handle_sso_login outcome
  (result, if JVal.hasKey result "error" then 500 else 200)

/-- The agent relay's /sso_callback endpoint (sso_agent.py lines 226-248):
a missing or empty code is rejected with 400 before any backend call;
otherwise status 200 exactly when the result's status value is OK and no
error key is present. Returns body, status and the updated jar. -/
def sso_callback_endpoint (code : Option String) (jar : Jar)
    (outcome : CallOutcome) : JVal × Nat × Jar :=
  match code with
  | none => (errObj "missing code", (400, jar))
  | some c =>
    if c = "" then (errObj "missing code", (400, jar))
    else
      let res := handle_sso_callback jar outcome
      (res.1,
       (if isStatusVal res.1 "OK" && !(JVal.hasKey res.1 "error") then 200 else 500,
        res.2))

/-- The agent relay's /sso_me endpoint (sso_agent.py lines 251-260): status
200 exactly when the result carries a user key, otherwise 401. -/
def sso_me_endpoint (jar : Jar) (outcome : CallOutcome) : JVal × Nat :=
  let result := handle_sso_me jar outcome
  (result, if JVal.hasKey result "user" then 200 else 401)

/-- The agent relay's /sso_logout endpoint (sso_agent.py lines 263-272):
status 200 exactly when the result's status value is ok. Returns body,
status and the updated jar. -/
def sso_logout_endpoint (jar : Jar) (outcome : CallOutcome) :
    JVal × Nat × Jar :=
  let res := handle_sso_logout jar outcome
  (res.1, (if isStatusVal res.1 "ok" then 200 else 500, res.2))

/-- The MCP relay's /sso_login endpoint (mcp_sso_server.py lines 171-179). -/
def sso_login_http (outcome : CallOutcome) : JVal × Nat :=
  let result := sso_login outcome
  (result, if JVal.hasKey result "error" then 500 else 200)

/-- The MCP relay's /sso_callback endpoint (mcp_sso_server.py lines
182-198). -/
def sso_callback_http (code : Option String) (jar : Jar)
    (outcome : CallOutcome) : JVal × Nat × Jar :=
  match code with
  | none => (errObj "missing code", (400, jar))
  | some c =>
    if c = "" then (errObj "missing code", (400, jar))
    else
      let res := sso_callback jar outcome
      (res.1,
       (if isStatusVal res.1 "OK" && !(JVal.hasKey res.1 "error") then 200 else 500,
        res.2))

/-- The MCP relay's /sso_me endpoint (mcp_sso_server.py lines 201-209). -/
def sso_me_http (jar : Jar) (outcome : CallOutcome) : JVal × Nat :=
  let result := sso_me jar outcome
  (result, if JVal.hasKey result "user" then 200 else 401)

/-- The MCP relay's /sso_logout endpoint (mcp_sso_server.py lines
212-220). -/
def sso_logout_http (jar : Jar) (outcome : CallOutcome) : JVal × Nat × Jar :=
  let res := sso_logout jar outcome
  (res.1, (if isStatusVal res.1 "ok" then 200 else 500, res.2))

/-- The HTTP response FastAPI produces from an auth_callback outcome, as a
relay observes it: a success is a RedirectResponse to /post-login carrying
the one set cookie and an empty (unparseable) body; an HTTPException is a
non-redirect JSON response with a detail body and no cookies. -/
def respOfCallback : CallbackResult → HttpResponse
  | CallbackResult.success ck loc =>
    { isRedirect := true, location := some loc, cookies := [(ck.key, ck.value)],
      jsonBody := Except.error "Expecting value", text := "" }
  | CallbackResult.badRequest d =>
    { isRedirect := false, location := none, cookies := [],
      jsonBody := Except.ok (JVal.obj [("detail", JVal.str d)]),
      text := "\x7b\x22detail\x22:\x22" ++ d ++ "\x22\x7d" }
  | CallbackResult.authFailed d =>
    { isRedirect := false, location := none, cookies := [],
      jsonBody := Except.ok (JVal.obj [("detail", JVal.str d)]),
      text := "\x7b\x22detail\x22:\x22" ++ d ++ "\x22\x7d" }

/-- A JSON body whose error value starts with the connection_error label,
the shape the spec calls connection_error-flavored. -/
def connFlavored (j : JVal) : Prop :=
  ∃ rest, j = errObj ("connection_error: " ++ rest)

/-- A JSON body whose error value starts with either failure label the two
whoami relays use on a failed backend call. -/
def whoamiFailFlavored (j : JVal) : Prop :=
  ∃ rest, j = errObj ("connection_error: " ++ rest) ∨
    j = errObj ("me failed: " ++ rest)

/-- When the code is present and nonempty, auth_callback always leaves the
pending set validate_state leaves, whatever the exchange returns. -/
lemma auth_callback_snd (c : String) (state : Option String)
    (pending : Finset String) (ex : String → ExchangeResult) (hc : c ≠ "") :
    (auth_callback (some c) state pending ex).2 =
      (validate_state state pending).2 := by
  simp only [auth_callback, if_neg hc]
  cases h : (ex c).id_token <;> simp [h]

/-- A nonempty pending nonce validates and is erased. -/
lemma validate_state_mem (s : String) (pending : Finset String)
    (hs : s ≠ "") (hmem : s ∈ pending) :
    validate_state (some s) pending = (true, pending.erase s) := by
  simp only [validate_state]
  rw [if_pos ⟨hs, hmem⟩]

/-- A missing, empty, or unknown state leaves validation false and the
pending set unchanged. -/
lemma validate_state_invalid (state : Option String) (pending : Finset String)
    (h : ∀ s, state = some s → ¬(s ≠ "" ∧ s ∈ pending)) :
    validate_state state pending = (false, pending) := by
  cases state with
  | none => rfl
  | some s =>
    simp only [validate_state]
    rw [if_neg (h s rfl)]

/-- C1: when the code is present (nonempty), the state is a pending nonce
issued earlier and not yet consumed, and the exchange returns an identity
token, auth_callback returns a redirect to /post-login, sets the session
cookie (http-only, samesite lax, value the raw identity token), and removes
exactly that nonce from the pending set. -/
theorem auth_callback_valid_state_success (c s tok : String)
    (pending : Finset String) (exchange : String → ExchangeResult)
    (hc : c ≠ "") (hs : s ≠ "") (hmem : s ∈ pending)
    (hex : (exchange c).id_token = some tok) :
    auth_callback (some c) (some s) pending exchange =
      (CallbackResult.success
        { key := COOKIE_NAME, value := tok, httponly := true, secure := false,
          samesite := "lax" } "/post-login",
       pending.erase s) ∧
    s ∉ (auth_callback (some c) (some s) pending exchange).2 := by
  have h1 : auth_callback (some c) (some s) pending exchange =
      (CallbackResult.success
        { key := COOKIE_NAME, value := tok, httponly := true, secure := false,
          samesite := "lax" } "/post-login",
       pending.erase s) := by
    simp only [auth_callback, if_neg hc, hex,
      validate_state_mem s pending hs hmem]
  exact ⟨h1, by rw [h1]; exact Finset.not_mem_erase s pending⟩

/-- Witness instantiating auth_callback_valid_state_success at a concrete
call. -/
theorem auth_callback_valid_state_success_witness :
    auth_callback (some "authcode") (some "nonce1") ({"nonce1"} : Finset String)
        (fun _ => { id_token := some "tok1" }) =
      (CallbackResult.success
        { key := COOKIE_NAME, value := "tok1", httponly := true, secure := false,
          samesite := "lax" } "/post-login",
       ({"nonce1"} : Finset String).erase "nonce1") ∧
    "nonce1" ∉ (auth_callback (some "authcode") (some "nonce1")
        ({"nonce1"} : Finset String) (fun _ => { id_token := some "tok1" })).2 :=
  auth_callback_valid_state_success "authcode" "nonce1" "tok1" {"nonce1"}
    (fun _ => { id_token := some "tok1" })
    (by decide) (by decide) (by decide) rfl

/-- C2: a consumed nonce is gone. After a callback that validated the state,
the nonce is absent from the pending set, a later validation of the same
state fails (validate_state returns false, nothing is silently
re-validated), and a second callback presenting the same state leaves the
pending set unchanged. -/
theorem auth_callback_state_single_use (s c1 : String) (pending : Finset String)
    (ex1 : String → ExchangeResult)
    (hc1 : c1 ≠ "") (hs : s ≠ "") (hmem : s ∈ pending) :
    s ∉ (auth_callback (some c1) (some s) pending ex1).2 ∧
    validate_state (some s) (auth_callback (some c1) (some s) pending ex1).2 =
      (false, (auth_callback (some c1) (some s) pending ex1).2) ∧
    ∀ (code2 : Option String) (ex2 : String → ExchangeResult),
      (auth_callback code2 (some s)
          (auth_callback (some c1) (some s) pending ex1).2 ex2).2 =
        (auth_callback (some c1) (some s) pending ex1).2 := by
  have hp : (auth_callback (some c1) (some s) pending ex1).2 = pending.erase s := by
    rw [auth_callback_snd c1 _ _ _ hc1, validate_state_mem s pending hs hmem]
  have hnot : s ∉ pending.erase s := Finset.not_mem_erase s pending
  have hinv : ∀ t, (some s : Option String) = some t →
      ¬(t ≠ "" ∧ t ∈ pending.erase s) := by
    intro t ht hand
    injection ht with h2
    exact hnot (h2 ▸ hand.2)
  refine ⟨by rw [hp]; exact hnot, ?_, ?_⟩
  · rw [hp, validate_state_invalid (some s) (pending.erase s) hinv]
  · intro code2 ex2
    rw [hp]
    cases code2 with
    | none => rfl
    | some c2 =>
      by_cases hc2 : c2 = ""
      · subst hc2; rfl
      · rw [auth_callback_snd c2 _ _ _ hc2,
          validate_state_invalid (some s) (pending.erase s) hinv]

/-- Witness instantiating auth_callback_state_single_use at a concrete
replay. -/
theorem auth_callback_state_single_use_witness :
    "nonce2" ∉ (auth_callback (some "codeA") (some "nonce2")
        ({"nonce2"} : Finset String) (fun _ => { id_token := none })).2 ∧
    validate_state (some "nonce2")
        (auth_callback (some "codeA") (some "nonce2") ({"nonce2"} : Finset String)
          (fun _ => { id_token := none })).2 =
      (false, (auth_callback (some "codeA") (some "nonce2")
          ({"nonce2"} : Finset String) (fun _ => { id_token := none })).2) ∧
    (auth_callback (some "codeB") (some "nonce2")
        (auth_callback (some "codeA") (some "nonce2") ({"nonce2"} : Finset String)
          (fun _ => { id_token := none })).2
        (fun _ => { id_token := some "tokB" })).2 =
      (auth_callback (some "codeA") (some "nonce2") ({"nonce2"} : Finset String)
        (fun _ => { id_token := none })).2 := by
  have h := auth_callback_state_single_use "nonce2" "codeA" {"nonce2"}
    (fun _ => { id_token := none }) (by decide) (by decide) (by decide)
  exact ⟨h.1, h.2.1, h.2.2 (some "codeB") (fun _ => { id_token := some "tokB" })⟩

/-- C3: with a nonempty code, a missing or unknown state never causes a
rejection: the pending set is untouched and the handler outcome is exactly
the function of the exchange result (401 when the identity token is absent,
the cookie-setting redirect when it is present). -/
theorem auth_callback_lenient_state (c : String) (state : Option String)
    (pending : Finset String) (ex : String → ExchangeResult) (hc : c ≠ "")
    (hstate : state = none ∨ ∀ s, state = some s → s ∉ pending) :
    auth_callback (some c) state pending ex =
      ((match (ex c).id_token with
        | some tok => CallbackResult.success
            { key := COOKIE_NAME, value := tok, httponly := true, secure := false,
              samesite := "lax" } "/post-login"
        | none => CallbackResult.authFailed "Failed to authenticate"),
       pending) := by
  have hval : validate_state state pending = (false, pending) := by
    apply validate_state_invalid
    intro s hss hand
    cases hstate with
    | inl h => rw [h] at hss; exact Option.noConfusion hss
    | inr h => exact h s hss hand.2
  simp only [auth_callback, if_neg hc, hval]
  cases h : (ex c).id_token <;> simp [h]

/-- Witness instantiating auth_callback_lenient_state at a concrete call
whose state is unknown to the pending set. -/
theorem auth_callback_lenient_state_witness :
    auth_callback (some "codeC") (some "forged") (∅ : Finset String)
        (fun _ => { id_token := none }) =
      (CallbackResult.authFailed "Failed to authenticate", (∅ : Finset String)) :=
  auth_callback_lenient_state "codeC" (some "forged") ∅
    (fun _ => { id_token := none }) (by decide)
    (Or.inr (by intro s hs; simp))

/-- C10 counterexample: a callback with the code missing leaves a presented,
pending state in the pending set, against the claim that such a state is
always removed. -/
theorem auth_callback_missing_code_counterexample :
    "s1" ∈ ({"s1"} : Finset String) ∧
    (auth_callback none (some "s1") ({"s1"} : Finset String)
        (fun _ => { id_token := none })).2 = ({"s1"} : Finset String) ∧
    "s1" ∈ (auth_callback none (some "s1") ({"s1"} : Finset String)
        (fun _ => { id_token := none })).2 :=
  ⟨by decide, rfl, by decide⟩

/-- C10 amended: the pending set never gains an entry from auth_callback and
loses at most the presented nonce; when the code is present and nonempty and
the state is a nonempty pending nonce, exactly that nonce is erased; when
the code is missing or empty, or the state is missing, empty, or not
pending, the set is unchanged. -/
theorem auth_callback_pending_frame (code state : Option String)
    (pending : Finset String) (ex : String → ExchangeResult) :
    (auth_callback code state pending ex).2 ⊆ pending ∧
    (∀ x ∈ pending, x ∉ (auth_callback code state pending ex).2 →
      state = some x) ∧
    (∀ c s, code = some c → c ≠ "" → state = some s → s ≠ "" → s ∈ pending →
      (auth_callback code state pending ex).2 = pending.erase s) ∧
    ((code = none ∨ code = some "" ∨ state = none ∨
        (∀ s, state = some s → s = "" ∨ s ∉ pending)) →
      (auth_callback code state pending ex).2 = pending) := by
  have hsnd : (auth_callback code state pending ex).2 = pending ∨
      ∃ s, state = some s ∧ s ≠ "" ∧ s ∈ pending ∧
        (auth_callback code state pending ex).2 = pending.erase s := by
    cases code with
    | none => exact Or.inl rfl
    | some c =>
      by_cases hc : c = ""
      · subst hc; exact Or.inl rfl
      · rw [auth_callback_snd c _ _ _ hc]
        cases state with
        | none => exact Or.inl rfl
        | some s =>
          by_cases hcond : s ≠ "" ∧ s ∈ pending
          · refine Or.inr ⟨s, rfl, hcond.1, hcond.2, ?_⟩
            rw [validate_state_mem s pending hcond.1 hcond.2]
          · refine Or.inl ?_
            rw [validate_state_invalid (some s) pending ?_]
            intro t ht
            injection ht with h2
            exact h2 ▸ hcond
  refine ⟨?_, ?_, ?_, ?_⟩
  · cases hsnd with
    | inl h => rw [h]
    | inr h =>
      obtain ⟨s, _, _, _, h4⟩ := h
      rw [h4]
      exact Finset.erase_subset s pending
  · intro x hx hnx
    cases hsnd with
    | inl h => rw [h] at hnx; exact absurd hx hnx
    | inr h =>
      obtain ⟨s, hst, _, _, h4⟩ := h
      rw [h4] at hnx
      have hxs : x = s := by
        by_contra hne
        exact hnx (Finset.mem_erase.mpr ⟨hne, hx⟩)
      rw [hst, hxs]
  · intro c s hcode hc hstate hs hmem
    subst hcode; subst hstate
    rw [auth_callback_snd c _ _ _ hc, validate_state_mem s pending hs hmem]
  · intro hcase
    cases hsnd with
    | inl h => exact h
    | inr h =>
      obtain ⟨s, hst, hne, hmem, h4⟩ := h
      exfalso
      have hpend : (auth_callback code state pending ex).2 = pending := by
        rcases hcase with hc0 | hc0 | hs0 | hs0
        · subst hc0; rfl
        · subst hc0; rfl
        · rw [hs0] at hst; exact Option.noConfusion hst
        · rcases hs0 s hst with h0 | h0
          · exact absurd h0 hne
          · exact absurd hmem h0
      rw [hpend] at h4
      exact Finset.not_mem_erase s pending (h4 ▸ hmem)

/-- Witness instantiating auth_callback_pending_frame at concrete calls:
one that erases the presented nonce and one, without a state, that leaves
the pending set unchanged. -/
theorem auth_callback_pending_frame_witness :
    (auth_callback (some "cw") (some "sw") ({"sw"} : Finset String)
        (fun _ => { id_token := none })).2 ⊆ ({"sw"} : Finset String) ∧
    (auth_callback (some "cw") (some "sw") ({"sw"} : Finset String)
        (fun _ => { id_token := none })).2 =
      ({"sw"} : Finset String).erase "sw" ∧
    (auth_callback (some "cw") none ({"sw"} : Finset String)
        (fun _ => { id_token := none })).2 = ({"sw"} : Finset String) := by
  have h1 := auth_callback_pending_frame (some "cw") (some "sw") {"sw"}
    (fun _ => { id_token := none })
  have h2 := auth_callback_pending_frame (some "cw") none {"sw"}
    (fun _ => { id_token := none })
  exact ⟨h1.1, h1.2.2.1 "cw" "sw" rfl (by decide) rfl (by decide) (by decide),
    h2.2.2.2 (Or.inr (Or.inr (Or.inl rfl)))⟩

/-- C4 counterexample: a cookie that is present with the empty string as its
value is not decodable, yet auth_me answers unauthenticated rather than
invalid_token, because Python truthiness folds the empty value into the
missing-cookie branch. -/
theorem auth_me_empty_cookie_counterexample :
    auth_me (some "") (fun _ => DecodeOutcome.decodeError "Not enough segments") =
      MeResult.unauthenticated ∧
    MeResult.unauthenticated ≠ MeResult.invalidToken :=
  ⟨rfl, by decide⟩

/-- C4 amended: auth_me fails with exactly this taxonomy: a missing or
empty-valued session cookie yields 401 unauthenticated; a nonempty cookie
whose value is not decodable yields 401 invalid_token; any other decode
failure yields 500 internal_error; a decodable nonempty cookie yields 200
with no error body. -/
theorem auth_me_error_taxonomy (cookie : Option String)
    (decode : String → DecodeOutcome) :
    ((cookie = none ∨ cookie = some "") →
      auth_me cookie decode = MeResult.unauthenticated ∧
      (auth_me cookie decode).status = 401 ∧
      (auth_me cookie decode).errorBody = some "unauthenticated") ∧
    (∀ s m, cookie = some s → s ≠ "" → decode s = DecodeOutcome.decodeError m →
      auth_me cookie decode = MeResult.invalidToken ∧
      (auth_me cookie decode).status = 401 ∧
      (auth_me cookie decode).errorBody = some "invalid_token") ∧
    (∀ s m, cookie = some s → s ≠ "" → decode s = DecodeOutcome.otherError m →
      auth_me cookie decode = MeResult.internalError ∧
      (auth_me cookie decode).status = 500 ∧
      (auth_me cookie decode).errorBody = some "internal_error") ∧
    (∀ s c, cookie = some s → s ≠ "" → decode s = DecodeOutcome.ok c →
      (auth_me cookie decode).status = 200 ∧
      (auth_me cookie decode).errorBody = none) := by
  refine ⟨?_, ?_, ?_, ?_⟩
  · rintro (rfl | rfl)
    · exact ⟨rfl, rfl, rfl⟩
    · exact ⟨rfl, rfl, rfl⟩
  · rintro s m rfl hs hdec
    have h : auth_me (some s) decode = MeResult.invalidToken := by
      simp only [auth_me, if_neg hs, hdec]
    exact ⟨h, by rw [h]; rfl, by rw [h]; rfl⟩
  · rintro s m rfl hs hdec
    have h : auth_me (some s) decode = MeResult.internalError := by
      simp only [auth_me, if_neg hs, hdec]
    exact ⟨h, by rw [h]; rfl, by rw [h]; rfl⟩
  · rintro s c rfl hs hdec
    simp only [auth_me, if_neg hs, hdec]
    exact ⟨rfl, rfl⟩

/-- Witness instantiating every branch of auth_me_error_taxonomy at
concrete calls. -/
theorem auth_me_error_taxonomy_witness :
    (auth_me none (fun _ => DecodeOutcome.decodeError "bad") =
        MeResult.unauthenticated ∧
      (auth_me none (fun _ => DecodeOutcome.decodeError "bad")).status = 401 ∧
      (auth_me none (fun _ => DecodeOutcome.decodeError "bad")).errorBody =
        some "unauthenticated") ∧
    (auth_me (some "garbage") (fun _ => DecodeOutcome.decodeError "bad") =
        MeResult.invalidToken ∧
      (auth_me (some "garbage") (fun _ => DecodeOutcome.decodeError "bad")).status = 401 ∧
      (auth_me (some "garbage") (fun _ => DecodeOutcome.decodeError "bad")).errorBody =
        some "invalid_token") ∧
    (auth_me (some "odd") (fun _ => DecodeOutcome.otherError "boom") =
        MeResult.internalError ∧
      (auth_me (some "odd") (fun _ => DecodeOutcome.otherError "boom")).status = 500 ∧
      (auth_me (some "odd") (fun _ => DecodeOutcome.otherError "boom")).errorBody =
        some "internal_error") ∧
    ((auth_me (some "good")
        (fun _ => DecodeOutcome.ok
          { sub := some "u", oid := none, email := some "e", preferred_username := none,
            upn := none, name := some "n" })).status = 200 ∧
      (auth_me (some "good")
        (fun _ => DecodeOutcome.ok
          { sub := some "u", oid := none, email := some "e", preferred_username := none,
            upn := none, name := some "n" })).errorBody = none) :=
  ⟨(auth_me_error_taxonomy none (fun _ => DecodeOutcome.decodeError "bad")).1
      (Or.inl rfl),
   (auth_me_error_taxonomy (some "garbage")
      (fun _ => DecodeOutcome.decodeError "bad")).2.1 "garbage" "bad" rfl
      (by decide) rfl,
   (auth_me_error_taxonomy (some "odd")
      (fun _ => DecodeOutcome.otherError "boom")).2.2.1 "odd" "boom" rfl
      (by decide) rfl,
   (auth_me_error_taxonomy (some "good")
      (fun _ => DecodeOutcome.ok
        { sub := some "u", oid := none, email := some "e", preferred_username := none,
          upn := none, name := some "n" })).2.2.2 "good"
      { sub := some "u", oid := none, email := some "e", preferred_username := none,
        upn := none, name := some "n" } rfl (by decide) rfl⟩

/-- C5: a decodable session token is projected to the user object with the
documented fallback order: subject from sub else oid, email from email else
preferred_username else upn, name from name else the literal Unknown User. -/
theorem auth_me_user_projection (s : String) (decode : String → DecodeOutcome)
    (c : Claims) (hs : s ≠ "") (hdec : decode s = DecodeOutcome.ok c) :
    auth_me (some s) decode = MeResult.user
      { sub := match c.sub with | some v => some v | none => c.oid,
        email := match c.email with
          | some v => some v
          | none => match c.preferred_username with
            | some v => some v
            | none => c.upn,
        name := match c.name with | some v => v | none => "Unknown User" } := by
  simp only [auth_me, if_neg hs, hdec]
  obtain ⟨su, oi, em, pu, up, na⟩ := c
  cases su <;> cases em <;> cases pu <;> cases na <;>
    simp [Option.orElse, Option.getD]

/-- Witness instantiating auth_me_user_projection at a claim set exercising
the oid, preferred_username and default-name fallbacks. -/
theorem auth_me_user_projection_witness :
    auth_me (some "jwt1")
        (fun _ => DecodeOutcome.ok
          { sub := none, oid := some "oid-9", email := none,
            preferred_username := some "pu@x", upn := some "upn@x",
            name := none }) =
      MeResult.user
        { sub := some "oid-9", email := some "pu@x", name := "Unknown User" } :=
  auth_me_user_projection "jwt1"
    (fun _ => DecodeOutcome.ok
      { sub := none, oid := some "oid-9", email := none,
        preferred_username := some "pu@x", upn := some "upn@x", name := none })
    { sub := none, oid := some "oid-9", email := none,
      preferred_username := some "pu@x", upn := some "upn@x", name := none }
    (by decide) rfl

/-- C6: when the backend callback succeeds (a redirect response), both relay
callbacks replace the whole local jar with exactly the cookies that response
carried, whatever the jar held before, and return the OK status. -/
theorem relay_callback_stores_backend_cookies (code state : Option String)
    (pending : Finset String) (ex : String → ExchangeResult)
    (jarA jarM : Jar) (ck : SetCookie) (loc : String)
    (hsucc : (auth_callback code state pending ex).1 =
      CallbackResult.success ck loc) :
    handle_sso_callback jarA (CallOutcome.resp
        (respOfCallback (auth_callback code state pending ex).1)) =
      (JVal.obj [("status", JVal.str "OK")], [(ck.key, ck.value)]) ∧
    sso_callback jarM (CallOutcome.resp
        (respOfCallback (auth_callback code state pending ex).1)) =
      (JVal.obj [("status", JVal.str "OK")], [(ck.key, ck.value)]) := by
  rw [hsucc]
  constructor <;>
    simp [handle_sso_callback, sso_callback, respOfCallback, storeCookies]

/-- Witness instantiating relay_callback_stores_backend_cookies: both jars
held stale entries and end up holding exactly the one backend cookie. -/
theorem relay_callback_stores_backend_cookies_witness :
    handle_sso_callback [("stale", "v0")] (CallOutcome.resp
        (respOfCallback (auth_callback (some "c1") none (∅ : Finset String)
          (fun _ => { id_token := some "tok9" })).1)) =
      (JVal.obj [("status", JVal.str "OK")], [("sso_session", "tok9")]) ∧
    sso_callback [("staleM", "v1")] (CallOutcome.resp
        (respOfCallback (auth_callback (some "c1") none (∅ : Finset String)
          (fun _ => { id_token := some "tok9" })).1)) =
      (JVal.obj [("status", JVal.str "OK")], [("sso_session", "tok9")]) :=
  relay_callback_stores_backend_cookies (some "c1") none ∅
    (fun _ => { id_token := some "tok9" }) [("stale", "v0")] [("staleM", "v1")]
    { key := "sso_session", value := "tok9", httponly := true, secure := false,
      samesite := "lax" }
    "/post-login" rfl

/-- C7 counterexample: with the backend unreachable, the agent relay's
whoami endpoint does return a connection_error body, but with HTTP status
401, not 500. -/
theorem relay_whoami_connection_error_counterexample :
    (sso_me_endpoint [] (CallOutcome.connectError "refused")).1 =
      errObj "connection_error: Cannot reach backend" ∧
    (sso_me_endpoint [] (CallOutcome.connectError "refused")).2 = 401 ∧
    (401 : Nat) ≠ 500 :=
  ⟨rfl, rfl, by decide⟩

/-- C7 amended: on a connection failure or timeout no relay endpoint
propagates the fault: login and callback return a connection_error-flavored
error body with HTTP status 500 (and leave the jar untouched), while both
whoami endpoints return an error body flavored connection_error or me-failed
with HTTP status 401. -/
theorem relay_connection_failure_taxonomy (jarA jarM : Jar) (m c : String)
    (o : CallOutcome) (hc : c ≠ "")
    (ho : o = CallOutcome.connectError m ∨ o = CallOutcome.timeoutErr m) :
    (connFlavored (sso_login_endpoint o).1 ∧ (sso_login_endpoint o).2 = 500) ∧
    (connFlavored (sso_login_http o).1 ∧ (sso_login_http o).2 = 500) ∧
    (connFlavored (sso_callback_endpoint (some c) jarA o).1 ∧
      (sso_callback_endpoint (some c) jarA o).2.1 = 500 ∧
      (sso_callback_endpoint (some c) jarA o).2.2 = jarA) ∧
    (connFlavored (sso_callback_http (some c) jarM o).1 ∧
      (sso_callback_http (some c) jarM o).2.1 = 500 ∧
      (sso_callback_http (some c) jarM o).2.2 = jarM) ∧
    (whoamiFailFlavored (sso_me_endpoint jarA o).1 ∧
      (sso_me_endpoint jarA o).2 = 401) ∧
    (whoamiFailFlavored (sso_me_http jarM o).1 ∧
      (sso_me_http jarM o).2 = 401) := by
  rcases ho with rfl | rfl
  · refine ⟨⟨⟨"Cannot reach backend. Is service_a_backend.py running on port 8000?",
        rfl⟩, rfl⟩,
      ⟨⟨m, rfl⟩, rfl⟩, ?_, ?_,
      ⟨⟨"Cannot reach backend", Or.inl rfl⟩, rfl⟩,
      ⟨⟨m, Or.inr rfl⟩, rfl⟩⟩
    · simp only [sso_callback_endpoint, if_neg hc]
      exact ⟨⟨"Cannot reach backend", rfl⟩, rfl, rfl⟩
    · simp only [sso_callback_http, if_neg hc]
      exact ⟨⟨m, rfl⟩, rfl, rfl⟩
  · refine ⟨⟨⟨"Backend timeout", rfl⟩, rfl⟩,
      ⟨⟨m, rfl⟩, rfl⟩, ?_, ?_,
      ⟨⟨m, Or.inr rfl⟩, rfl⟩,
      ⟨⟨m, Or.inr rfl⟩, rfl⟩⟩
    · simp only [sso_callback_endpoint, if_neg hc]
      exact ⟨⟨m, rfl⟩, rfl, rfl⟩
    · simp only [sso_callback_http, if_neg hc]
      exact ⟨⟨m, rfl⟩, rfl, rfl⟩

/-- Witness instantiating relay_connection_failure_taxonomy at a concrete
unreachable-backend call. -/
theorem relay_connection_failure_taxonomy_witness :
    (connFlavored (sso_login_endpoint (CallOutcome.connectError "boom")).1 ∧
      (sso_login_endpoint (CallOutcome.connectError "boom")).2 = 500) ∧
    (connFlavored (sso_login_http (CallOutcome.connectError "boom")).1 ∧
      (sso_login_http (CallOutcome.connectError "boom")).2 = 500) ∧
    (connFlavored (sso_callback_endpoint (some "xyz") [("a", "1")]
        (CallOutcome.connectError "boom")).1 ∧
      (sso_callback_endpoint (some "xyz") [("a", "1")]
        (CallOutcome.connectError "boom")).2.1 = 500 ∧
      (sso_callback_endpoint (some "xyz") [("a", "1")]
        (CallOutcome.connectError "boom")).2.2 = [("a", "1")]) ∧
    (connFlavored (sso_callback_http (some "xyz") []
        (CallOutcome.connectError "boom")).1 ∧
      (sso_callback_http (some "xyz") []
        (CallOutcome.connectError "boom")).2.1 = 500 ∧
      (sso_callback_http (some "xyz") []
        (CallOutcome.connectError "boom")).2.2 = []) ∧
    (whoamiFailFlavored (sso_me_endpoint [("a", "1")]
        (CallOutcome.connectError "boom")).1 ∧
      (sso_me_endpoint [("a", "1")] (CallOutcome.connectError "boom")).2 = 401) ∧
    (whoamiFailFlavored (sso_me_http [] (CallOutcome.connectError "boom")).1 ∧
      (sso_me_http [] (CallOutcome.connectError "boom")).2 = 401) :=
  relay_connection_failure_taxonomy [("a", "1")] [] "boom" "xyz"
    (CallOutcome.connectError "boom") (by decide) (Or.inl rfl)

/-- C8 counterexample: a logout through the MCP relay with the backend
unreachable leaves the jar exactly as it was — the outer except handler
returns the connection_error body without clearing session_cookies — so the
jar is not empty after every relay_logout call. -/
theorem mcp_logout_keeps_jar_counterexample :
    (sso_logout [("sso_session", "tok")] (CallOutcome.connectError "refused")).2 =
      [("sso_session", "tok")] ∧
    ([("sso_session", "tok")] : Jar) ≠ [] :=
  ⟨rfl, by decide⟩

/-- C8 amended: the agent relay's logout clears the local jar on every
outcome (response with parseable or unparseable body, connection failure,
timeout, any other exception), and the MCP relay's logout clears it after
any backend response; but when the MCP relay's backend call raises
(unreachable, timeout, or any other exception) its jar is left unchanged. -/
theorem relay_logout_jar_behavior (jarA jarM : Jar) (o : CallOutcome) :
    (handle_sso_logout jarA o).2 = [] ∧
    (sso_logout_endpoint jarA o).2.2 = [] ∧
    (∀ r, o = CallOutcome.resp r →
      (sso_logout jarM o).2 = [] ∧ (sso_logout_http jarM o).2.2 = []) ∧
    ((∃ m, o = CallOutcome.connectError m ∨ o = CallOutcome.timeoutErr m ∨
        o = CallOutcome.otherExc m) →
      (sso_logout jarM o).2 = jarM ∧ (sso_logout_http jarM o).2.2 = jarM) := by
  refine ⟨?_, ?_, ?_, ?_⟩
  · cases o with
    | resp r => cases hj : r.jsonBody <;> simp [handle_sso_logout, hj]
    | connectError m => rfl
    | timeoutErr m => rfl
    | otherExc m => rfl
  · cases o with
    | resp r =>
      cases hj : r.jsonBody <;> simp [handle_sso_logout, sso_logout_endpoint, hj]
    | connectError m => rfl
    | timeoutErr m => rfl
    | otherExc m => rfl
  · rintro r rfl
    cases hj : r.jsonBody <;> simp [sso_logout, sso_logout_http, hj]
  · rintro ⟨m, hm | hm | hm⟩ <;> subst hm <;> exact ⟨rfl, rfl⟩

/-- Witness instantiating relay_logout_jar_behavior at an unreachable
backend (agent jar cleared, MCP jar kept) and at a parseable backend
response (MCP jar cleared). -/
theorem relay_logout_jar_behavior_witness :
    (handle_sso_logout [("a", "1")] (CallOutcome.connectError "refused")).2 = [] ∧
    (sso_logout [("k", "v")] (CallOutcome.resp
        { isRedirect := false, location := none, cookies := [],
          jsonBody := Except.ok (JVal.obj [("status", JVal.str "ok")]),
          text := "" })).2 = [] ∧
    (sso_logout [("k", "v")] (CallOutcome.connectError "refused")).2 =
      [("k", "v")] := by
  have h1 := relay_logout_jar_behavior [("a", "1")] [("k", "v")]
    (CallOutcome.connectError "refused")
  have h2 := relay_logout_jar_behavior [("a", "1")] [("k", "v")]
    (CallOutcome.resp
      { isRedirect := false, location := none, cookies := [],
        jsonBody := Except.ok (JVal.obj [("status", JVal.str "ok")]),
        text := "" })
  exact ⟨h1.1, (h2.2.2.1 _ rfl).1, (h1.2.2.2 ⟨"refused", Or.inl rfl⟩).1⟩

/-- C9 counterexample: on the same non-redirect backend login response with
a parseable JSON body, the agent relay wraps the body in a backend_error
message while the MCP relay passes it through verbatim, so the two variants
disagree. -/
theorem relay_login_variants_counterexample :
    handle_sso_login (CallOutcome.resp
        { isRedirect := false, location := none, cookies := [],
          jsonBody := Except.ok (JVal.obj [("a", JVal.null)]), text := "plain" }) ≠
    sso_login (CallOutcome.resp
        { isRedirect := false, location := none, cookies := [],
          jsonBody := Except.ok (JVal.obj [("a", JVal.null)]), text := "plain" }) := by
  intro h
  have hL : JVal.hasKey (handle_sso_login (CallOutcome.resp
      { isRedirect := false, location := none, cookies := [],
        jsonBody := Except.ok (JVal.obj [("a", JVal.null)]), text := "plain" }))
      "a" = false := rfl
  rw [h] at hL
  have hR : JVal.hasKey (sso_login (CallOutcome.resp
      { isRedirect := false, location := none, cookies := [],
        jsonBody := Except.ok (JVal.obj [("a", JVal.null)]), text := "plain" }))
      "a" = true := rfl
  rw [hR] at hL
  exact Bool.noConfusion hL

/-- C9 amended: the two relay variants keep identical callback-jar
bookkeeping for every backend outcome and agree on the logout jar after any
backend response (both clear it); but when the logout backend call raises,
the agent variant clears its jar while the MCP variant leaves it unchanged.
On the principal success paths they return the same body: redirect login
responses, redirect callback responses, and parseable whoami, logout and
callback bodies, which both variants pass through verbatim. They differ on
several error-path bodies. -/
theorem relay_variants_jar_and_success_agreement (jar : Jar)
    (o : CallOutcome) :
    (handle_sso_callback jar o).2 = (sso_callback jar o).2 ∧
    (∀ r, o = CallOutcome.resp r →
      (handle_sso_logout jar o).2 = (sso_logout jar o).2) ∧
    ((∃ m, o = CallOutcome.connectError m ∨ o = CallOutcome.timeoutErr m ∨
        o = CallOutcome.otherExc m) →
      (handle_sso_logout jar o).2 = [] ∧ (sso_logout jar o).2 = jar) ∧
    (∀ r, o = CallOutcome.resp r → r.isRedirect = true →
      handle_sso_login o = sso_login o ∧
      (handle_sso_callback jar o).1 = (sso_callback jar o).1) ∧
    (∀ r j, o = CallOutcome.resp r → r.jsonBody = Except.ok j →
      handle_sso_me jar o = sso_me jar o ∧ handle_sso_me jar o = j ∧
      (handle_sso_logout jar o).1 = (sso_logout jar o).1 ∧
      (handle_sso_logout jar o).1 = j ∧
      (handle_sso_callback jar o).1 = (sso_callback jar o).1) := by
  refine ⟨?_, ?_, ?_, ?_, ?_⟩
  · cases o with
    | resp r =>
      cases hr : r.isRedirect <;> cases hj : r.jsonBody <;>
        simp [handle_sso_callback, sso_callback, hr, hj]
    | connectError m => rfl
    | timeoutErr m => rfl
    | otherExc m => rfl
  · rintro r rfl
    cases hj : r.jsonBody <;> simp [handle_sso_logout, sso_logout, hj]
  · rintro ⟨m, hm | hm | hm⟩ <;> subst hm <;> exact ⟨rfl, rfl⟩
  · rintro r rfl hred
    constructor
    · simp [handle_sso_login, sso_login, hred]
    · simp [handle_sso_callback, sso_callback, hred]
  · rintro r j rfl hj
    refine ⟨?_, ?_, ?_, ?_, ?_⟩
    · simp [handle_sso_me, sso_me, hj]
    · simp [handle_sso_me, hj]
    · simp [handle_sso_logout, sso_logout, hj]
    · simp [handle_sso_logout, hj]
    · by_cases hred : r.isRedirect <;>
        simp [handle_sso_callback, sso_callback, hred, hj]

/-- Witness instantiating relay_variants_jar_and_success_agreement at a
concrete redirect response with a parseable body, and at an unreachable
backend for the logout jar divergence. -/
theorem relay_variants_agreement_witness :
    (handle_sso_callback [("k", "v")] (CallOutcome.resp
        { isRedirect := true, location := some "https://idp/auth", cookies := [],
          jsonBody := Except.ok JVal.null, text := "" })).2 =
      (sso_callback [("k", "v")] (CallOutcome.resp
        { isRedirect := true, location := some "https://idp/auth", cookies := [],
          jsonBody := Except.ok JVal.null, text := "" })).2 ∧
    (handle_sso_logout [("k", "v")] (CallOutcome.resp
        { isRedirect := true, location := some "https://idp/auth", cookies := [],
          jsonBody := Except.ok JVal.null, text := "" })).2 =
      (sso_logout [("k", "v")] (CallOutcome.resp
        { isRedirect := true, location := some "https://idp/auth", cookies := [],
          jsonBody := Except.ok JVal.null, text := "" })).2 ∧
    ((handle_sso_logout [("k", "v")] (CallOutcome.connectError "refused")).2 = [] ∧
     (sso_logout [("k", "v")] (CallOutcome.connectError "refused")).2 =
       [("k", "v")]) ∧
    (handle_sso_login (CallOutcome.resp
        { isRedirect := true, location := some "https://idp/auth", cookies := [],
          jsonBody := Except.ok JVal.null, text := "" }) =
      sso_login (CallOutcome.resp
        { isRedirect := true, location := some "https://idp/auth", cookies := [],
          jsonBody := Except.ok JVal.null, text := "" }) ∧
     (handle_sso_callback [("k", "v")] (CallOutcome.resp
        { isRedirect := true, location := some "https://idp/auth", cookies := [],
          jsonBody := Except.ok JVal.null, text := "" })).1 =
      (sso_callback [("k", "v")] (CallOutcome.resp
        { isRedirect := true, location := some "https://idp/auth", cookies := [],
          jsonBody := Except.ok JVal.null, text := "" })).1) ∧
    (handle_sso_me [("k", "v")] (CallOutcome.resp
        { isRedirect := true, location := some "https://idp/auth", cookies := [],
          jsonBody := Except.ok JVal.null, text := "" }) =
      sso_me [("k", "v")] (CallOutcome.resp
        { isRedirect := true, location := some "https://idp/auth", cookies := [],
          jsonBody := Except.ok JVal.null, text := "" }) ∧
     handle_sso_me [("k", "v")] (CallOutcome.resp
        { isRedirect := true, location := some "https://idp/auth", cookies := [],
          jsonBody := Except.ok JVal.null, text := "" }) = JVal.null) := by
  have h := relay_variants_jar_and_success_agreement [("k", "v")]
    (CallOutcome.resp
      { isRedirect := true, location := some "https://idp/auth", cookies := [],
        jsonBody := Except.ok JVal.null, text := "" })
  have hd := relay_variants_jar_and_success_agreement [("k", "v")]
    (CallOutcome.connectError "refused")
  have h2 := h.2.1
      { isRedirect := true, location := some "https://idp/auth", cookies := [],
        jsonBody := Except.ok JVal.null, text := "" } rfl
  have h4 := h.2.2.2.2
      { isRedirect := true, location := some "https://idp/auth", cookies := [],
        jsonBody := Except.ok JVal.null, text := "" } JVal.null rfl rfl
  have h3 := h.2.2.2.1
      { isRedirect := true, location := some "https://idp/auth", cookies := [],
        jsonBody := Except.ok JVal.null, text := "" } rfl rfl
  exact ⟨h.1, h2, hd.2.2.1 ⟨"refused", Or.inl rfl⟩, h3, h4.1, h4.2.1⟩

end SSO
